import Mathlib

/-!
Verification of the pipeline orchestration core of src/streamlit-app.py
(rat hepatitis E subtyping web application).

The embedding below translates the program into pure Lean definitions.
External state that the program observes (subprocess results, the JSON
artifacts on disk, the output-directory listing, the output tree at
packaging time) is passed in explicitly through an environment record,
and the observable effects of a run (stages invoked, error messages,
file moves, archive members, the download offer) are returned in an
output record.
-/

/-- JSON values as decoded by json.load. Numbers are modelled as integers:
no claim depends on fractional rendering, only on Python truthiness and on
string fields. Object fields model the post-parse dict: one value per key. -/
inductive JValue where
  | null
  | bool (b : Bool)
  | num (n : Int)
  | str (s : String)
  | arr (xs : List JValue)
  | obj (fields : List (String × JValue))

/-- Python truthiness of a decoded JSON value: None, False, 0, empty string,
empty list and empty dict are falsy, everything else is truthy. -/
def JValue.truthy : JValue → Bool
  | .null => false
  | .bool b => b
  | .num n => n != 0
  | .str s => s != ""
  | .arr xs => !xs.isEmpty
  | .obj fs => !fs.isEmpty

/-- The Python exception classes that the display block of main can raise or
catch, each carrying its message text. -/
inductive PyExc where
  | fileNotFound (msg : String)
  | jsonDecode (msg : String)
  | keyError (key : String)
  | typeError (msg : String)
  | valueError (msg : String)
  | indexError (msg : String)
deriving DecidableEq

/-- Python subscripting value[key] with a string key: dict lookup raising
KeyError on a missing key, TypeError on non-dict values. The KeyError message
is modelled as the key itself (CPython renders it as the repr of the key). -/
def JValue.getItem : JValue → String → Except PyExc JValue
  | .obj fs, k =>
    match fs.lookup k with
    | some v => .ok v
    | none => .error (.keyError k)
  | .str _, _ => .error (.typeError "string indices must be integers")
  | .arr _, _ => .error (.typeError "list indices must be integers or slices, not str")
  | .null, _ => .error (.typeError "NoneType object is not subscriptable")
  | .bool _, _ => .error (.typeError "bool object is not subscriptable")
  | .num _, _ => .error (.typeError "int object is not subscriptable")

/-- Python str() of a decoded JSON value, as interpolated into f-strings.
Container rendering is abstracted (no claim inspects it). -/
def JValue.pyStr : JValue → String
  | .null => "None"
  | .bool b => if b then "True" else "False"
  | .num n => toString n
  | .str s => s
  | .arr _ => "[...]"
  | .obj _ => "\x7b...\x7d"

/-- Python equality between a decoded JSON value and a string literal:
true exactly when the value is that string. -/
def JValue.pyEqStr : JValue → String → Bool
  | .str t, s => t == s
  | _, _ => false

/-- Python format(value, ".4f") as used in the result summary f-strings:
succeeds on numbers and booleans (the 4-decimal rendering itself is
abstracted), raises ValueError on strings and TypeError otherwise. -/
def JValue.formatF4 : JValue → Except PyExc String
  | .num n => .ok (toString n)
  | .bool b => .ok (if b then "1.0000" else "0.0000")
  | .str _ => .error (.valueError "Unknown format code f for object of type str")
  | .null => .error (.typeError "unsupported format string passed to NoneType")
  | .arr _ => .error (.typeError "unsupported format string passed to list")
  | .obj _ => .error (.typeError "unsupported format string passed to dict")

/-- Python iteration over a decoded JSON value: lists yield their elements,
strings yield their characters as one-character strings, dicts yield their
keys; other values raise TypeError. -/
def JValue.pyIter : JValue → Except PyExc (List JValue)
  | .arr xs => .ok xs
  | .str s => .ok (s.data.map fun c => .str (String.mk [c]))
  | .obj fs => .ok (fs.map fun kv => .str kv.fst)
  | .null => .error (.typeError "NoneType object is not iterable")
  | .bool _ => .error (.typeError "bool object is not iterable")
  | .num _ => .error (.typeError "int object is not iterable")

/-- Helper for str.join: every element of the iterated sequence must itself
be a string, otherwise TypeError. -/
def joinStrElems : List JValue → Except PyExc (List String)
  | [] => .ok []
  | .str s :: rest => (joinStrElems rest).map (s :: ·)
  | _ :: _ => .error (.typeError "sequence item: expected str instance")

/-- Python ", ".join(value): iterate the value and require string items. -/
def joinComma (v : JValue) : Except PyExc String := do
  let xs ← v.pyIter
  let ss ← joinStrElems xs
  pure (String.intercalate ", " ss)

/-- Outcome of one subprocess.run call: exit status and captured streams. -/
structure ProcResult where
  returncode : Int
  stdout : String
  stderr : String
deriving DecidableEq

/-- State of a stage output artifact on disk when the runner tries to read
it: absent, present but not decodable as JSON, or decodable to a value. -/
inductive Artifact where
  | missing
  | malformed (raw : String)
  | decoded (v : JValue)

/-- The external behavior a single stage-runner call observes: the
subprocess outcome and the artifact state at read time. -/
structure StageRun where
  proc : ProcResult
  artifact : Artifact

/-- What a runner call returns and emits: the decoded payload (None on any
failure), the st.error texts emitted, and the argv list handed to
subprocess.run. -/
structure RunnerOut where
  payload : Option JValue
  errors : List String
  command : List String

/-- str(CalledProcessError): CPython renders the command and the exit status
only; the captured stderr and stdout are NOT part of str(e). The quoting of
the command repr is elided. -/
def calledProcessErrorStr (cmd : List String) (code : Int) : String :=
  "Command " ++ toString cmd ++ " returned non-zero exit status " ++ toString code ++ "."

/-- Models os.path.join(root, name) for the plain, separator-free relative
names that occur in this program. -/
def pathJoin (root n : String) : String := root ++ "/" ++ n

/-- Models os.path.abspath: a path that does not start with the separator is
resolved against the current working directory. Normalization of dot
components is elided (none occur in the embedded paths). -/
def os_abspath (cwd p : String) : String :=
  match p.data with
  | '/' :: _ => p
  | _ => cwd ++ "/" ++ p

/-- Embeds calculate_p_distance (src/streamlit-app.py lines 17-48).
subprocess.run is invoked with check=True, so a nonzero exit raises
CalledProcessError BEFORE the returncode test on line 30; the branch on
lines 30-33 (which would report the captured stderr) is unreachable, and
the handler on lines 46-48 reports only str(e), which names the command and
the exit status but never the stderr text. On a zero exit the runner reads
output/p_distance_output.json: absence and undecodability each produce an
error message and a None payload. -/
def calculate_p_distance (pyExe cwd input_fasta reference_fasta : String)
    (run : StageRun) : RunnerOut :=
  let command := [pyExe, "p-distance-calc.py", os_abspath cwd input_fasta,
    os_abspath cwd reference_fasta]
  if run.proc.returncode != 0 then
    { payload := none,
      errors := ["Subprocess error: " ++ calledProcessErrorStr command run.proc.returncode],
      command := command }
  else
    match run.artifact with
    | .missing =>
      { payload := none,
        errors := ["Error: p_distance_output.json not found in output directory."],
        command := command }
    | .malformed _ =>
      { payload := none,
        errors := ["Error: Could not decode JSON from p_distance_output.json"],
        command := command }
    | .decoded v => { payload := some v, errors := [], command := command }

/-- Return record of infer_new_tree: the decoded payload plus the two output
paths the function derived from the query id (all None on failure). -/
structure TreeRunnerOut where
  payload : Option JValue
  output_alignment : Option String
  output_tree : Option String
  errors : List String
  command : List String

/-- Embeds infer_new_tree (src/streamlit-app.py lines 50-93). The output
alignment and tree-prefix paths are derived from the caller-supplied query
id. As in calculate_p_distance, check=True makes the returncode branch on
lines 72-75 unreachable and the CalledProcessError handler reports only
str(e). The FileNotFoundError handler for a missing script file (lines
88-90) is outside the embedded envelope. -/
def infer_new_tree (pyExe cwd existing_alignment new_sequence query_id existing_tree
    output_dir : String) (run : StageRun) : TreeRunnerOut :=
  let output_alignment := pathJoin output_dir (query_id ++ "_updated.fasta")
  let output_tree := pathJoin output_dir (query_id ++ "_reoptimised")
  let command := [pyExe, "infer_new_ML_tree.py", os_abspath cwd existing_alignment,
    os_abspath cwd new_sequence, os_abspath cwd existing_tree,
    os_abspath cwd output_alignment, os_abspath cwd output_tree]
  if run.proc.returncode != 0 then
    { payload := none, output_alignment := none, output_tree := none,
      errors := ["Subprocess error: " ++ calledProcessErrorStr command run.proc.returncode],
      command := command }
  else
    match run.artifact with
    | .missing =>
      { payload := none, output_alignment := none, output_tree := none,
        errors := ["Error: ml_tree_output.json not found in output directory."],
        command := command }
    | .malformed _ =>
      { payload := none, output_alignment := none, output_tree := none,
        errors := ["Error: Could not decode JSON from ml_tree_output.json"],
        command := command }
    | .decoded v =>
      { payload := some v, output_alignment := some output_alignment,
        output_tree := some output_tree, errors := [], command := command }

/-- Embeds infer_subtype (src/streamlit-app.py lines 95-126). The
predefined_label argument is passed into the argv list verbatim, without
abspath resolution. check=True again makes lines 108-111 unreachable. -/
def infer_subtype (pyExe cwd input_newick predefined_label csv_file : String)
    (run : StageRun) : RunnerOut :=
  let command := [pyExe, "ML_patristic-dist_calc.py", os_abspath cwd input_newick,
    predefined_label, os_abspath cwd csv_file]
  if run.proc.returncode != 0 then
    { payload := none,
      errors := ["Subprocess error: " ++ calledProcessErrorStr command run.proc.returncode],
      command := command }
  else
    match run.artifact with
    | .missing =>
      { payload := none,
        errors := ["Error: subtype_output.json not found in output directory."],
        command := command }
    | .malformed _ =>
      { payload := none,
        errors := ["Error: Could not decode JSON from subtype_output.json"],
        command := command }
    | .decoded v => { payload := some v, errors := [], command := command }

/-- One parsed FASTA record: its id (first word of the header) and sequence. -/
structure FastaRecord where
  id : String
  seq : String
deriving DecidableEq

/-- Embeds extract_fasta_header (src/streamlit-app.py lines 11-15): the id of
the first record, or None when the file parses to no records (the loop body
returns on the first iteration; an empty iteration falls through to an
implicit None). -/
def extract_fasta_header (records : List FastaRecord) : Option String :=
  match records with
  | [] => none
  | r :: _ => some r.id

/-- Python str() of an optional string, as produced when the value is
interpolated into an f-string: None renders as "None". -/
def pyStrOpt : Option String → String
  | none => "None"
  | some s => s

/-- Truthiness of a runner result as tested by main (if p_distance_output:):
None is falsy, a present payload is tested by Python truthiness. -/
def truthyOpt : Option JValue → Bool
  | none => false
  | some v => v.truthy

example : truthyOpt (some (JValue.obj [])) = false := by decide
example : truthyOpt (some (JValue.obj [("a", JValue.null)])) = true := by decide
example : (calculate_p_distance "py" "/w" "/tmp/x.fasta" "reference_genomes.fa"
    { proc := { returncode := 1, stdout := "", stderr := "boom" }, artifact := .missing }).errors
    = ["Subprocess error: Command [py, p-distance-calc.py, /tmp/x.fasta, /w/reference_genomes.fa] returned non-zero exit status 1."] := rfl

/-- Accumulated streamlit output of the result-display block: write calls,
write calls made inside the conflict-summary expander, and error calls. -/
structure DState where
  written : List String
  conflictWritten : List String
  errs : List String
deriving DecidableEq

/-- Monad for the result-display block (src/streamlit-app.py lines 210-261):
explicit state passing of the accumulated streamlit output, with Python
exceptions in the result. Writes made before an exception are retained, as
they are on screen in streamlit. -/
def DisplayM (α : Type) : Type := DState → Except PyExc α × DState

instance : Monad DisplayM where
  pure a := fun st => (.ok a, st)
  bind x f := fun st =>
    match x st with
    | (.ok a, st2) => f a st2
    | (.error e, st2) => (.error e, st2)

instance : MonadExceptOf PyExc DisplayM where
  throw e := fun st => (.error e, st)
  tryCatch x handler := fun st =>
    match x st with
    | (.ok a, st2) => (.ok a, st2)
    | (.error e, st2) => handler e st2

/-- st.write at top level of the display block. -/
def wr (s : String) : DisplayM Unit :=
  fun st => (.ok (), { st with written := st.written ++ [s] })

/-- st.write inside the conflict-summary expander. -/
def wrC (s : String) : DisplayM Unit :=
  fun st => (.ok (), { st with conflictWritten := st.conflictWritten ++ [s] })

/-- st.error issued from inside the display block (the inner IndexError
handler on line 249). -/
def errW (s : String) : DisplayM Unit :=
  fun st => (.ok (), { st with errs := st.errs ++ [s] })

/-- Lift a fallible Python operation into the display monad. -/
def liftE {α : Type} (e : Except PyExc α) : DisplayM α :=
  fun st => (e, st)

/-- Python value[key] inside the display block. -/
def getK (v : JValue) (k : String) : DisplayM JValue := liftE (v.getItem k)

/-- The body of the loop on lines 243-244 of src/streamlit-app.py: format
one conflicting taxon as "taxon (Clade c Subtype s)". -/
def renderTaxonInfo (taxon : JValue) : DisplayM String := do
  let tx ← getK taxon "taxon"
  let cl ← getK taxon "clade"
  let sub ← getK taxon "subtype"
  pure (tx.pyStr ++ " (Clade " ++ cl.pyStr ++ " Subtype " ++ sub.pyStr ++ ")")

/-- Embeds the body of the try on lines 219-252 of src/streamlit-app.py,
after the three json.load calls succeeded: the results summary (the two
st.columns are presentation containers; their writes happen in program
order), the conflict expander, and the final subtype-assignment line. The
f-string on line 227 evaluates its fields left to right, so a missing key
raises before the format specifier is applied. The progress bar, sleeps and
st.success calls are presentation-only and are elided. -/
def displayBody (p_distance_result subtype_result : JValue) : DisplayM Unit := do
  wr "\n**Results Summary**"
  let pcr ← getK p_distance_result "closest_reference"
  let pd ← getK p_distance_result "p_distance"
  let pdStr ← liftE pd.formatF4
  wr ("* **Closest Reference:** " ++ pcr.pyStr ++ " (" ++ pdStr ++ ")")
  let pbc ← getK p_distance_result "below_cutoff"
  wr ("* **Below Cutoff:** " ++ pbc.pyStr)
  let scr ← getK subtype_result "closest_reference_ml"
  let smd ← getK subtype_result "ml_distance"
  let smdStr ← liftE smd.formatF4
  wr ("* **Closest Reference:** " ++ scr.pyStr ++ " (" ++ smdStr ++ ")")
  let cf ← getK subtype_result "conflicts"
  wr ("* **Conflicts:** " ++ cf.pyStr)
  if cf.truthy then
    let sa ← getK subtype_result "subtype_assignment"
    if sa.pyEqStr "Not determined" then
      wrC "* **Consensus Assignment:** Not determined due to conflicts."
    else
      try
        let summary ← getK subtype_result "conflict_summary"
        let taxa ← getK summary "conflicting_taxa"
        let taxaList ← liftE taxa.pyIter
        let infos ← taxaList.mapM renderTaxonInfo
        wrC ("* **Conflicting Taxa:** " ++ String.intercalate ", " infos)
        let clades ← getK summary "clades"
        let cladesStr ← liftE (joinComma clades)
        wrC ("* **Conflicting Clades:** " ++ cladesStr)
        let subs ← getK summary "subtypes"
        let subsStr ← liftE (joinComma subs)
        wrC ("* **Conflicting Subtypes:** " ++ subsStr)
      catch e =>
        match e with
        | .indexError m => errW ("Error parsing subtype assignment: " ++ m)
        | ex => throw ex
  let sa2 ← getK subtype_result "subtype_assignment"
  wr ("\n**Subtype Assignment:** " ++ sa2.pyStr)

/-- Re-reading a stage artifact from disk at display time (lines 212-217):
absence raises FileNotFoundError, undecodable content raises JSONDecodeError.
The exception message is modelled as the artifact path. -/
def loadArtifact (fname : String) : Artifact → Except PyExc JValue
  | .missing => .error (.fileNotFound fname)
  | .malformed _ => .error (.jsonDecode fname)
  | .decoded v => .ok v

/-- The except clauses on lines 254-261: FileNotFoundError, JSONDecodeError
and KeyError each get their own message; every other exception (TypeError,
ValueError, IndexError escaping differently) falls to the generic "except
Exception" branch. -/
def handleDisplayExc : PyExc → String
  | .fileNotFound m => "Error loading results: File not found - " ++ m
  | .jsonDecode m => "Error loading results: JSON decode error - " ++ m
  | .keyError k => "Error loading results: Key error - " ++ k
  | .typeError m => "An unexpected error occurred: " ++ m
  | .valueError m => "An unexpected error occurred: " ++ m
  | .indexError m => "An unexpected error occurred: " ++ m

/-- Result of the display block: everything written, the exception (if one
escaped to the handlers on lines 254-261), and every st.error text. -/
structure DisplayOut where
  written : List String
  conflictWritten : List String
  errors : List String
  exc : Option PyExc
deriving DecidableEq

/-- Embeds the display block of main (src/streamlit-app.py lines 209-261):
the three artifacts are re-read from disk (the ml-tree result is loaded but
never referenced afterwards; its load can still raise), then the summary is
rendered; any exception is caught by the handler chain and reported as an
st.error message, after which main continues. -/
def displayResults (pRead tRead sRead : Artifact) : DisplayOut :=
  let comp : DisplayM Unit := do
    let p ← liftE (loadArtifact "output/p_distance_output.json" pRead)
    let _tree ← liftE (loadArtifact "output/ml_tree_output.json" tRead)
    let s ← liftE (loadArtifact "output/subtype_output.json" sRead)
    displayBody p s
  match comp { written := [], conflictWritten := [], errs := [] } with
  | (.ok _, st) =>
    { written := st.written, conflictWritten := st.conflictWritten,
      errors := st.errs, exc := none }
  | (.error e, st) =>
    { written := st.written, conflictWritten := st.conflictWritten,
      errors := st.errs ++ [handleDisplayExc e], exc := some e }

example :
    (displayResults (.decoded (.obj [("closest_reference", .str "Ref_A"),
        ("p_distance", .num 0), ("below_cutoff", .bool true)]))
      (.decoded (.obj []))
      (.decoded (.obj [("closest_reference_ml", .str "Ref_B"), ("ml_distance", .num 1),
        ("conflicts", .bool true), ("subtype_assignment", .str "Not determined")]))).conflictWritten
    = ["* **Consensus Assignment:** Not determined due to conflicts."] := rfl

example :
    (displayResults (.decoded (.obj [("closest_reference", .str "Ref_A"),
        ("p_distance", .num 0), ("below_cutoff", .bool true)]))
      (.decoded (.obj []))
      (.decoded (.obj [("closest_reference_ml", .str "Ref_B"), ("ml_distance", .num 1),
        ("conflicts", .bool true), ("subtype_assignment", .str "HEV-C1")]))).exc
    = some (.keyError "conflict_summary") := rfl

/-- Python substring membership test (needle in hay) on character lists:
true when the needle occurs as a prefix of some suffix of the hay. -/
def sublistCheck (needle : List Char) : List Char → Bool
  | [] => needle.isEmpty
  | c :: t => needle.isPrefixOf (c :: t) || sublistCheck needle t

/-- Python substring membership test on strings, as used on line 275. -/
def containsSub (needle hay : String) : Bool :=
  sublistCheck needle.data hay.data

/-- Embeds the reorganization step (src/streamlit-app.py lines 269-278):
the iqtree subdirectory of the output directory is created with
exist_ok=True, then every name in os.listdir(output_dir) that contains
"reoptimised" or "updated" is renamed from output/name to
output/iqtree/name. The returned list gives the (source, destination)
pairs of the os.rename calls, in listing order. -/
def reorganizeMoves (listing : List String) : List (String × String) :=
  (listing.filter fun n => containsSub "reoptimised" n || containsSub "updated" n).map
    fun n => (pathJoin "output" n, pathJoin (pathJoin "output" "iqtree") n)

/-- A directory entry of the on-disk output tree: a regular file or a
subdirectory with its own entries. Names are plain (separator-free). -/
inductive Entry where
  | file (name : String)
  | dir (name : String) (entries : List Entry)

/-- The file names of one os.walk triple, joined with their root: the
regular files directly inside a directory. -/
def topLevelFiles (root : String) (es : List Entry) : List String :=
  es.filterMap fun e =>
    match e with
    | .file n => some (pathJoin root n)
    | .dir _ _ => none

/-- The file paths contributed by the subdirectories of a directory during
os.walk, in top-down order: for each subdirectory, first its own files,
then its subdirectories recursively. -/
def zipWalkSubdirs (root : String) : List Entry → List String
  | [] => []
  | Entry.file _ :: rest => zipWalkSubdirs root rest
  | Entry.dir n es :: rest =>
    (topLevelFiles (pathJoin root n) es ++ zipWalkSubdirs (pathJoin root n) es)
      ++ zipWalkSubdirs root rest

/-- The file paths collected by the loop over os.walk("output") on lines
283-285: every regular file under the output tree, top-down, the files of
each directory before those of its subdirectories. -/
def zipWalk (tree : List Entry) : List String :=
  topLevelFiles "output" tree ++ zipWalkSubdirs "output" tree

/-- Models os.path.dirname: the portion of the path before its final
separator, empty when the path has none (os.path.dirname("output") = ""). -/
def os_path_dirname (p : String) : String :=
  match p.data.reverse.dropWhile (fun c => c != '/') with
  | [] => ""
  | _ :: rest => String.mk rest.reverse

/-- Models os.path.relpath(path, start) for the one call site in main, where
start is os.path.dirname("output") = "", i.e. the current directory: the
normalized cwd-relative paths produced by os.walk("output") come back
unchanged. The start argument is retained to mirror the call shape. -/
def os_path_relpath (p _start : String) : String := p

/-- Embeds the packaging step (src/streamlit-app.py lines 281-287): every
file path collected from os.walk("output") is written into output.zip under
its path relative to os.path.dirname("output"). Each pair is (path on disk,
archive member name). -/
def zipArchive (tree : List Entry) : List (String × String) :=
  (zipWalk tree).map fun p => (p, os_path_relpath p (os_path_dirname "output"))

/-- Modelled from the spec (section 4.4 wording, for comparison with the
walk-based packaging code): the regular files under a directory tree, each
named by its path, enumerated entry by entry. -/
def specRegularFiles (root : String) : List Entry → List String
  | [] => []
  | Entry.file n :: rest => pathJoin root n :: specRegularFiles root rest
  | Entry.dir n es :: rest =>
    specRegularFiles (pathJoin root n) es ++ specRegularFiles root rest

example :
    zipArchive [Entry.file "a.json", Entry.dir "iqtree" [Entry.file "Q1_updated.fasta"]]
    = [("output/a.json", "output/a.json"),
       ("output/iqtree/Q1_updated.fasta", "output/iqtree/Q1_updated.fasta")] := by
  simp [zipArchive, zipWalk, zipWalkSubdirs, topLevelFiles, pathJoin, os_path_relpath]

/-- The three pipeline stages, in the order main can invoke them. -/
inductive Stage where
  | distance
  | treeInfer
  | subtypeInfer
deriving DecidableEq

/-- Everything outside the program that one run of main observes: the
uploaded file (None when no upload happened; otherwise its parsed FASTA
records), the interpreter path, working directory and temporary file path,
the three stage-runner observations, the three artifact states at display
time, whether the temporary file still exists at cleanup time, the
output-directory listing at reorganization time, and the output tree at
packaging time. -/
structure Env where
  upload : Option (List FastaRecord)
  pyExe : String
  cwd : String
  tempPath : String
  pDistRun : StageRun
  treeRun : StageRun
  subtypeRun : StageRun
  pDistRead : Artifact
  treeRead : Artifact
  subtypeRead : Artifact
  tempFileExists : Bool
  listing : List String
  outputTree : List Entry

/-- Observable effects of one run of main: the stages whose runner was
invoked, the st.error texts emitted by the controller and runners, the argv
list passed to the subtype stage, the output paths derived by the tree
stage, the display-block output, whether os.remove was called on the
temporary file (and whether the swallowed FileNotFoundError case occurred),
the file moves of the reorganization, the archive members, and whether the
download button was offered. -/
structure MainOut where
  stages : List Stage
  stageErrors : List String
  subtypeCommand : Option (List String)
  tree_output_alignment : Option String
  tree_output_tree : Option String
  display : Option DisplayOut
  tempRemoveCalled : Bool
  tempWasMissing : Bool
  moves : Option (List (String × String))
  archive : Option (List (String × String))
  downloadOffered : Bool

/-- Embeds main (src/streamlit-app.py lines 128-292; the name main is
reserved in Lean, hence mainRun). Nothing below the
upload check runs without an upload. The three stages run in textual order;
after each one, main tests the Python truthiness of the returned payload
and returns early on a falsy result, so the temporary-file cleanup, the
reorganization, the packaging and the download button on lines 263-292 are
reached only when all three payloads are truthy. The cleanup ignores
FileNotFoundError, and the display block never lets an exception escape, so
that path always reaches the download button. The fixed input names on
lines 133-136 appear as literals. The progress bar, sleeps, summary
statistics and st.success calls are presentation-only and are elided. -/
def mainRun (env : Env) : MainOut :=
  match env.upload with
  | none =>
    { stages := [], stageErrors := [], subtypeCommand := none,
      tree_output_alignment := none, tree_output_tree := none, display := none,
      tempRemoveCalled := false, tempWasMissing := false, moves := none,
      archive := none, downloadOffered := false }
  | some records =>
    let query_id := extract_fasta_header records
    let r1 := calculate_p_distance env.pyExe env.cwd env.tempPath
      "reference_genomes.fa" env.pDistRun
    if truthyOpt r1.payload then
      let r2 := infer_new_tree env.pyExe env.cwd "reference_alignment.fa" env.tempPath
        (pyStrOpt query_id) "reference_tree.tree" "output" env.treeRun
      if truthyOpt r2.payload then
        let input_newick := pyStrOpt r2.output_tree ++ ".treefile"
        let r3 := infer_subtype env.pyExe env.cwd input_newick (pyStrOpt query_id)
          "reference_subtypes.csv" env.subtypeRun
        if truthyOpt r3.payload then
          { stages := [.distance, .treeInfer, .subtypeInfer],
            stageErrors := r1.errors ++ r2.errors ++ r3.errors,
            subtypeCommand := some r3.command,
            tree_output_alignment := r2.output_alignment,
            tree_output_tree := r2.output_tree,
            display := some (displayResults env.pDistRead env.treeRead env.subtypeRead),
            tempRemoveCalled := true,
            tempWasMissing := !env.tempFileExists,
            moves := some (reorganizeMoves env.listing),
            archive := some (zipArchive env.outputTree),
            downloadOffered := true }
        else
          { stages := [.distance, .treeInfer, .subtypeInfer],
            stageErrors := r1.errors ++ r2.errors ++ r3.errors ++ ["Failed to infer subtype."],
            subtypeCommand := some r3.command,
            tree_output_alignment := r2.output_alignment,
            tree_output_tree := r2.output_tree,
            display := none, tempRemoveCalled := false, tempWasMissing := false,
            moves := none, archive := none, downloadOffered := false }
      else
        { stages := [.distance, .treeInfer],
          stageErrors := r1.errors ++ r2.errors ++ ["Failed to infer new ML tree."],
          subtypeCommand := none,
          tree_output_alignment := r2.output_alignment,
          tree_output_tree := r2.output_tree,
          display := none, tempRemoveCalled := false, tempWasMissing := false,
          moves := none, archive := none, downloadOffered := false }
    else
      { stages := [.distance],
        stageErrors := r1.errors ++ ["Failed to calculate p-distance."],
        subtypeCommand := none, tree_output_alignment := none, tree_output_tree := none,
        display := none, tempRemoveCalled := false, tempWasMissing := false,
        moves := none, archive := none, downloadOffered := false }

/-- A run whose Distance-stage process exits nonzero (stderr captured but,
per the embedding of check=True, never reported). -/
def envStage1Fail : Env :=
  { upload := some [{ id := "Q1", seq := "ACGT" }],
    pyExe := "python", cwd := "/app", tempPath := "/tmp/t.fasta",
    pDistRun := { proc := { returncode := 1, stdout := "", stderr := "boom" },
                  artifact := Artifact.missing },
    treeRun := { proc := { returncode := 0, stdout := "", stderr := "" },
                 artifact := Artifact.decoded (.obj [("status", .str "ok")]) },
    subtypeRun := { proc := { returncode := 0, stdout := "", stderr := "" },
                    artifact := Artifact.decoded (.obj [("status", .str "ok")]) },
    pDistRead := Artifact.missing, treeRead := Artifact.missing,
    subtypeRead := Artifact.missing, tempFileExists := true,
    listing := [], outputTree := [] }

/-- C1: stage execution is strictly Distance, then TreeInfer, then
SubtypeInfer, and a falsy stage result (in particular a runner returning no
payload) makes the controller return at once: the list of invoked stages is
always a prefix of the full order, a failed Distance stage leaves the list
at exactly that stage with no tree-stage output paths derived and no
subtype command issued, a failed TreeInfer stage stops before any subtype
command is issued, and a failed SubtypeInfer stage stops before the display,
cleanup and packaging steps. -/
theorem C1_stage_order (env : Env) (records : List FastaRecord)
    (hup : env.upload = some records) :
    ((mainRun env).stages = [Stage.distance] ∨
      (mainRun env).stages = [Stage.distance, Stage.treeInfer] ∨
      (mainRun env).stages = [Stage.distance, Stage.treeInfer, Stage.subtypeInfer])
    ∧ (truthyOpt (calculate_p_distance env.pyExe env.cwd env.tempPath
          "reference_genomes.fa" env.pDistRun).payload = false →
        (mainRun env).stages = [Stage.distance] ∧
        (mainRun env).subtypeCommand = none ∧
        (mainRun env).tree_output_tree = none ∧
        (mainRun env).display = none ∧
        (mainRun env).downloadOffered = false)
    ∧ (truthyOpt (calculate_p_distance env.pyExe env.cwd env.tempPath
          "reference_genomes.fa" env.pDistRun).payload = true →
        truthyOpt (infer_new_tree env.pyExe env.cwd "reference_alignment.fa" env.tempPath
          (pyStrOpt (extract_fasta_header records)) "reference_tree.tree" "output"
          env.treeRun).payload = false →
        (mainRun env).stages = [Stage.distance, Stage.treeInfer] ∧
        (mainRun env).subtypeCommand = none ∧
        (mainRun env).display = none ∧
        (mainRun env).downloadOffered = false)
    ∧ (truthyOpt (calculate_p_distance env.pyExe env.cwd env.tempPath
          "reference_genomes.fa" env.pDistRun).payload = true →
        truthyOpt (infer_new_tree env.pyExe env.cwd "reference_alignment.fa" env.tempPath
          (pyStrOpt (extract_fasta_header records)) "reference_tree.tree" "output"
          env.treeRun).payload = true →
        truthyOpt (infer_subtype env.pyExe env.cwd
          (pyStrOpt (infer_new_tree env.pyExe env.cwd "reference_alignment.fa" env.tempPath
            (pyStrOpt (extract_fasta_header records)) "reference_tree.tree" "output"
            env.treeRun).output_tree ++ ".treefile")
          (pyStrOpt (extract_fasta_header records))
          "reference_subtypes.csv" env.subtypeRun).payload = false →
        (mainRun env).stages = [Stage.distance, Stage.treeInfer, Stage.subtypeInfer] ∧
        (mainRun env).display = none ∧
        (mainRun env).moves = none ∧
        (mainRun env).archive = none ∧
        (mainRun env).downloadOffered = false) := by
  by_cases h1 : truthyOpt (calculate_p_distance env.pyExe env.cwd env.tempPath
      "reference_genomes.fa" env.pDistRun).payload
  · by_cases h2 : truthyOpt (infer_new_tree env.pyExe env.cwd "reference_alignment.fa"
        env.tempPath (pyStrOpt (extract_fasta_header records)) "reference_tree.tree" "output"
        env.treeRun).payload
    · by_cases h3 : truthyOpt (infer_subtype env.pyExe env.cwd
          (pyStrOpt (infer_new_tree env.pyExe env.cwd "reference_alignment.fa" env.tempPath
            (pyStrOpt (extract_fasta_header records)) "reference_tree.tree" "output"
            env.treeRun).output_tree ++ ".treefile")
          (pyStrOpt (extract_fasta_header records))
          "reference_subtypes.csv" env.subtypeRun).payload
      · simp [mainRun, hup, h1, h2, h3]
      · simp [mainRun, hup, h1, h2, h3]
    · simp [mainRun, hup, h1, h2]
  · simp [mainRun, hup, h1]

/-- Witness for C1 at a concrete run whose Distance stage fails: only the
Distance stage is invoked and the controller halts with nothing downstream. -/
theorem C1_stage_order_witness :
    (mainRun envStage1Fail).stages = [Stage.distance] ∧
    (mainRun envStage1Fail).subtypeCommand = none ∧
    (mainRun envStage1Fail).downloadOffered = false := by
  have h := C1_stage_order envStage1Fail [{ id := "Q1", seq := "ACGT" }] rfl
  have hf := h.2.1 (by rfl)
  exact ⟨hf.1, hf.2.1, hf.2.2.2.2⟩

/-- A run whose Distance-stage process exits with status zero and whose
artifact decodes to an empty JSON object (a falsy Python value). -/
def envStage1Falsy : Env :=
  { envStage1Fail with
    pDistRun := { proc := { returncode := 0, stdout := "", stderr := "" },
                  artifact := Artifact.decoded (.obj []) } }

/-- C10: stage success is decided by Python truthiness of the decoded
payload, not by exit status and decodability alone. For each stage, a zero
exit status with an artifact that decodes to a falsy value (empty object,
empty array, null, false, or 0) makes the controller report that stage as
failed and halt without invoking later stages. -/
theorem C10_falsy_payload_halts (env : Env) (records : List FastaRecord)
    (hup : env.upload = some records) :
    (∀ v : JValue, env.pDistRun.proc.returncode = 0 →
      env.pDistRun.artifact = Artifact.decoded v → v.truthy = false →
      (mainRun env).stages = [Stage.distance] ∧
      "Failed to calculate p-distance." ∈ (mainRun env).stageErrors ∧
      (mainRun env).subtypeCommand = none ∧
      (mainRun env).downloadOffered = false)
    ∧ (∀ v : JValue,
      truthyOpt (calculate_p_distance env.pyExe env.cwd env.tempPath
        "reference_genomes.fa" env.pDistRun).payload = true →
      env.treeRun.proc.returncode = 0 →
      env.treeRun.artifact = Artifact.decoded v → v.truthy = false →
      (mainRun env).stages = [Stage.distance, Stage.treeInfer] ∧
      "Failed to infer new ML tree." ∈ (mainRun env).stageErrors ∧
      (mainRun env).subtypeCommand = none ∧
      (mainRun env).downloadOffered = false)
    ∧ (∀ v : JValue,
      truthyOpt (calculate_p_distance env.pyExe env.cwd env.tempPath
        "reference_genomes.fa" env.pDistRun).payload = true →
      truthyOpt (infer_new_tree env.pyExe env.cwd "reference_alignment.fa" env.tempPath
        (pyStrOpt (extract_fasta_header records)) "reference_tree.tree" "output"
        env.treeRun).payload = true →
      env.subtypeRun.proc.returncode = 0 →
      env.subtypeRun.artifact = Artifact.decoded v → v.truthy = false →
      (mainRun env).stages = [Stage.distance, Stage.treeInfer, Stage.subtypeInfer] ∧
      "Failed to infer subtype." ∈ (mainRun env).stageErrors ∧
      (mainRun env).display = none ∧
      (mainRun env).archive = none ∧
      (mainRun env).downloadOffered = false) := by
  refine ⟨fun v hrc hart hv => ?_, fun v h1 hrc hart hv => ?_, fun v h1 h2 hrc hart hv => ?_⟩
  · have h1 : truthyOpt (calculate_p_distance env.pyExe env.cwd env.tempPath
        "reference_genomes.fa" env.pDistRun).payload = false := by
      simp [calculate_p_distance, hrc, hart, truthyOpt, hv]
    simp [mainRun, hup, h1]
  · have h2 : truthyOpt (infer_new_tree env.pyExe env.cwd "reference_alignment.fa"
        env.tempPath (pyStrOpt (extract_fasta_header records)) "reference_tree.tree" "output"
        env.treeRun).payload = false := by
      simp [infer_new_tree, hrc, hart, truthyOpt, hv]
    simp [mainRun, hup, h1, h2]
  · have h3 : ∀ nw lbl, truthyOpt (infer_subtype env.pyExe env.cwd nw lbl
        "reference_subtypes.csv" env.subtypeRun).payload = false := by
      intro nw lbl
      simp [infer_subtype, hrc, hart, truthyOpt, hv]
    simp [mainRun, hup, h1, h2, h3]

/-- Witness for C10 at a concrete run whose Distance-stage process exits
with status zero and writes a decodable but empty JSON object: the
controller treats the stage as failed and halts. -/
theorem C10_falsy_payload_halts_witness :
    (mainRun envStage1Falsy).stages = [Stage.distance] ∧
    "Failed to calculate p-distance." ∈ (mainRun envStage1Falsy).stageErrors ∧
    (mainRun envStage1Falsy).downloadOffered = false := by
  have h := (C10_falsy_payload_halts envStage1Falsy [{ id := "Q1", seq := "ACGT" }] rfl).1
    (JValue.obj []) rfl rfl rfl
  exact ⟨h.1, h.2.1, h.2.2.2⟩

/-- Counterexample to C2: on a run whose Distance stage fails, main returns
on line 178 of src/streamlit-app.py before ever reaching the cleanup block
on lines 263-267, so the temporary uploaded-sequence file is not removed on
that exit path. -/
theorem C2_counterexample :
    (mainRun envStage1Fail).stages = [Stage.distance] ∧
    (mainRun envStage1Fail).tempRemoveCalled = false := ⟨rfl, rfl⟩

/-- C2 as amended: the temporary-file deletion is attempted exactly when all
three stage payloads are truthy (the early returns on stage failure skip
the cleanup block entirely); on that path the deletion is best-effort — a
missing file is swallowed (FileNotFoundError pass) and the run still
proceeds to reorganization, packaging and the download offer. -/
theorem C2_cleanup_only_on_success (env : Env) (records : List FastaRecord)
    (hup : env.upload = some records) :
    ((mainRun env).tempRemoveCalled = true ↔
      (truthyOpt (calculate_p_distance env.pyExe env.cwd env.tempPath
          "reference_genomes.fa" env.pDistRun).payload = true ∧
       truthyOpt (infer_new_tree env.pyExe env.cwd "reference_alignment.fa" env.tempPath
          (pyStrOpt (extract_fasta_header records)) "reference_tree.tree" "output"
          env.treeRun).payload = true ∧
       truthyOpt (infer_subtype env.pyExe env.cwd
          (pyStrOpt (infer_new_tree env.pyExe env.cwd "reference_alignment.fa" env.tempPath
            (pyStrOpt (extract_fasta_header records)) "reference_tree.tree" "output"
            env.treeRun).output_tree ++ ".treefile")
          (pyStrOpt (extract_fasta_header records))
          "reference_subtypes.csv" env.subtypeRun).payload = true))
    ∧ (mainRun env).tempWasMissing = ((mainRun env).tempRemoveCalled && !env.tempFileExists)
    ∧ ((mainRun env).tempRemoveCalled = true →
        (mainRun env).moves = some (reorganizeMoves env.listing) ∧
        (mainRun env).archive = some (zipArchive env.outputTree) ∧
        (mainRun env).downloadOffered = true) := by
  by_cases h1 : truthyOpt (calculate_p_distance env.pyExe env.cwd env.tempPath
      "reference_genomes.fa" env.pDistRun).payload
  · by_cases h2 : truthyOpt (infer_new_tree env.pyExe env.cwd "reference_alignment.fa"
        env.tempPath (pyStrOpt (extract_fasta_header records)) "reference_tree.tree" "output"
        env.treeRun).payload
    · by_cases h3 : truthyOpt (infer_subtype env.pyExe env.cwd
          (pyStrOpt (infer_new_tree env.pyExe env.cwd "reference_alignment.fa" env.tempPath
            (pyStrOpt (extract_fasta_header records)) "reference_tree.tree" "output"
            env.treeRun).output_tree ++ ".treefile")
          (pyStrOpt (extract_fasta_header records))
          "reference_subtypes.csv" env.subtypeRun).payload
      · simp [mainRun, hup, h1, h2, h3]
      · simp [mainRun, hup, h1, h2, h3]
    · simp [mainRun, hup, h1, h2]
  · simp [mainRun, hup, h1]

/-- A fully successful run: truthy payloads at every stage, well-formed
artifacts at display time, and the temporary file already gone at cleanup
time (exercising the swallowed FileNotFoundError case). -/
def envAllOk : Env :=
  { upload := some [{ id := "Q1", seq := "ACGT" }],
    pyExe := "python", cwd := "/app", tempPath := "/tmp/t.fasta",
    pDistRun := { proc := { returncode := 0, stdout := "", stderr := "" },
                  artifact := Artifact.decoded (.obj [("closest_reference", .str "Ref_A"),
                    ("p_distance", .num 0), ("below_cutoff", .bool true)]) },
    treeRun := { proc := { returncode := 0, stdout := "", stderr := "" },
                 artifact := Artifact.decoded (.obj [("status", .str "ok")]) },
    subtypeRun := { proc := { returncode := 0, stdout := "", stderr := "" },
                    artifact := Artifact.decoded (.obj [("conflicts", .bool false)]) },
    pDistRead := Artifact.decoded (.obj [("closest_reference", .str "Ref_A"),
      ("p_distance", .num 0), ("below_cutoff", .bool true)]),
    treeRead := Artifact.decoded (.obj []),
    subtypeRead := Artifact.decoded (.obj [("closest_reference_ml", .str "Ref_A"),
      ("ml_distance", .num 0), ("conflicts", .bool false),
      ("subtype_assignment", .str "HEV-C1")]),
    tempFileExists := false,
    listing := ["p_distance_output.json", "Q1_updated.fasta", "Q1_reoptimised.treefile", "iqtree"],
    outputTree := [Entry.file "p_distance_output.json",
      Entry.dir "iqtree" [Entry.file "Q1_updated.fasta"]] }

/-- Witness for the amended C2 at a fully successful run whose temporary
file is already absent at cleanup time: the removal is attempted, the
missing file is swallowed, and the run still reaches the download offer. -/
theorem C2_cleanup_only_on_success_witness :
    (mainRun envAllOk).tempRemoveCalled = true ∧
    (mainRun envAllOk).tempWasMissing = true ∧
    (mainRun envAllOk).downloadOffered = true := by
  have h := C2_cleanup_only_on_success envAllOk [{ id := "Q1", seq := "ACGT" }] rfl
  have hc : (mainRun envAllOk).tempRemoveCalled = true := h.1.mpr ⟨rfl, rfl, rfl⟩
  refine ⟨hc, ?_, (h.2.2 hc).2.2⟩
  rw [h.2.1, hc]
  rfl

/-- C3 fails on the code (the dead returncode branches show it was the
intent): on a nonzero exit status the stage runners report only
str(CalledProcessError), which names the command and the status, and the
captured stderr text is discarded — the runner output does not depend on
the stderr at all, so the diagnostic can never be carried verbatim.
Shown here for the two runners the claim cites. -/
theorem C3_stderr_discarded (pyExe cwd input_fasta reference_fasta newick label csv
    out stderrA stderrB : String) (code : Int) (a : Artifact) (hcode : code ≠ 0) :
    (calculate_p_distance pyExe cwd input_fasta reference_fasta
        { proc := { returncode := code, stdout := out, stderr := stderrA }, artifact := a } =
      calculate_p_distance pyExe cwd input_fasta reference_fasta
        { proc := { returncode := code, stdout := out, stderr := stderrB }, artifact := a })
    ∧ (calculate_p_distance pyExe cwd input_fasta reference_fasta
        { proc := { returncode := code, stdout := out, stderr := stderrA }, artifact := a }).errors =
      ["Subprocess error: " ++ calledProcessErrorStr
        [pyExe, "p-distance-calc.py", os_abspath cwd input_fasta,
          os_abspath cwd reference_fasta] code]
    ∧ (infer_subtype pyExe cwd newick label csv
        { proc := { returncode := code, stdout := out, stderr := stderrA }, artifact := a } =
      infer_subtype pyExe cwd newick label csv
        { proc := { returncode := code, stdout := out, stderr := stderrB }, artifact := a })
    ∧ (infer_subtype pyExe cwd newick label csv
        { proc := { returncode := code, stdout := out, stderr := stderrA }, artifact := a }).errors =
      ["Subprocess error: " ++ calledProcessErrorStr
        [pyExe, "ML_patristic-dist_calc.py", os_abspath cwd newick, label,
          os_abspath cwd csv] code] := by
  have hb : (code != 0) = true := by simpa [bne_iff_ne] using hcode
  refine ⟨?_, ?_, ?_, ?_⟩ <;> simp [calculate_p_distance, infer_subtype, hb]

/-- Witness for C3 at a concrete failing Distance stage: with exit status 1
and a nonempty stderr, the one reported message is the generic subprocess
error naming only the command and the status. -/
theorem C3_stderr_discarded_witness :
    (calculate_p_distance "python" "/app" "/tmp/t.fasta" "reference_genomes.fa"
        { proc := { returncode := 1, stdout := "", stderr := "alignment tool crashed" },
          artifact := Artifact.missing }).errors =
      ["Subprocess error: Command [python, p-distance-calc.py, /tmp/t.fasta, /app/reference_genomes.fa] returned non-zero exit status 1."] := by
  have h := (C3_stderr_discarded "python" "/app" "/tmp/t.fasta" "reference_genomes.fa"
    "nw" "lbl" "csv" "" "alignment tool crashed" "" 1 Artifact.missing (by decide)).2.1
  rw [h]
  rfl

/-- When an exception escapes the display block to the handler chain, its
handler message is among the reported errors (it is appended last). -/
theorem displayResults_exc_reported (pRead tRead sRead : Artifact) (e : PyExc)
    (h : (displayResults pRead tRead sRead).exc = some e) :
    handleDisplayExc e ∈ (displayResults pRead tRead sRead).errors := by
  revert h
  unfold displayResults
  dsimp only
  split
  · intro h
    simp at h
  · intro h
    simp only [Option.some.injEq] at h
    subst h
    simp

/-- A run where all three stages succeed but the aggregation/display step
fails: the re-read subtype artifact lacks the ml_distance key, so the
results summary raises KeyError while being built. -/
def envAggFail : Env :=
  { envAllOk with
    subtypeRead := Artifact.decoded (.obj [("closest_reference_ml", .str "Ref_A")]) }

/-- Counterexample to C4: with all three stages successful and aggregation
failing (KeyError on ml_distance), main still reorganizes, packages and
presents the archive through the download button — the failure is reported
as an error message but the run is not terminal and the archive is offered
as the deliverable. -/
theorem C4_counterexample :
    ((mainRun envAggFail).display.map DisplayOut.exc) =
      some (some (.keyError "ml_distance")) ∧
    ((mainRun envAggFail).display.map DisplayOut.errors) =
      some ["Error loading results: Key error - ml_distance"] ∧
    (mainRun envAggFail).downloadOffered = true ∧
    (mainRun envAggFail).archive =
      some [("output/p_distance_output.json", "output/p_distance_output.json"),
            ("output/iqtree/Q1_updated.fasta", "output/iqtree/Q1_updated.fasta")] := by
  refine ⟨rfl, rfl, rfl, ?_⟩
  show some (zipArchive envAggFail.outputTree) = _
  simp [envAggFail, envAllOk, zipArchive, zipWalk, zipWalkSubdirs, topLevelFiles,
    pathJoin, os_path_relpath]

/-- C4 as amended: if all three stages succeed, any aggregation/validation
failure is caught and reported as an error message, but the run is NOT
terminal — the temporary file is cleaned up, the output directory is
reorganized and packaged, and the archive is presented to the caller via
the download button regardless of the aggregation outcome. -/
theorem C4_aggregation_not_terminal (env : Env) (records : List FastaRecord)
    (hup : env.upload = some records)
    (h1 : truthyOpt (calculate_p_distance env.pyExe env.cwd env.tempPath
      "reference_genomes.fa" env.pDistRun).payload = true)
    (h2 : truthyOpt (infer_new_tree env.pyExe env.cwd "reference_alignment.fa" env.tempPath
      (pyStrOpt (extract_fasta_header records)) "reference_tree.tree" "output"
      env.treeRun).payload = true)
    (h3 : truthyOpt (infer_subtype env.pyExe env.cwd
      (pyStrOpt (infer_new_tree env.pyExe env.cwd "reference_alignment.fa" env.tempPath
        (pyStrOpt (extract_fasta_header records)) "reference_tree.tree" "output"
        env.treeRun).output_tree ++ ".treefile")
      (pyStrOpt (extract_fasta_header records))
      "reference_subtypes.csv" env.subtypeRun).payload = true) :
    (mainRun env).display =
      some (displayResults env.pDistRead env.treeRead env.subtypeRead) ∧
    (∀ e : PyExc, (displayResults env.pDistRead env.treeRead env.subtypeRead).exc = some e →
      handleDisplayExc e ∈ (displayResults env.pDistRead env.treeRead env.subtypeRead).errors) ∧
    (mainRun env).tempRemoveCalled = true ∧
    (mainRun env).moves = some (reorganizeMoves env.listing) ∧
    (mainRun env).archive = some (zipArchive env.outputTree) ∧
    (mainRun env).downloadOffered = true := by
  refine ⟨?_, fun e he => displayResults_exc_reported _ _ _ e he, ?_, ?_, ?_, ?_⟩ <;>
    simp [mainRun, hup, h1, h2, h3]

/-- Witness for the amended C4 at the concrete aggregation-failure run. -/
theorem C4_aggregation_not_terminal_witness :
    (mainRun envAggFail).downloadOffered = true ∧
    "Error loading results: Key error - ml_distance" ∈
      (displayResults envAggFail.pDistRead envAggFail.treeRead envAggFail.subtypeRead).errors := by
  have h := C4_aggregation_not_terminal envAggFail [{ id := "Q1", seq := "ACGT" }]
    rfl rfl rfl rfl
  exact ⟨h.2.2.2.2.2, h.2.1 (.keyError "ml_distance") rfl⟩

/-- Unfolding lemma: bind in the display monad, applied to a state. -/
@[simp] theorem DisplayM_bind_apply {α β : Type} (x : DisplayM α) (f : α → DisplayM β)
    (st : DState) :
    (x >>= f) st =
      match x st with
      | (.ok a, st2) => f a st2
      | (.error e, st2) => (.error e, st2) := rfl

/-- Unfolding lemma: pure in the display monad, applied to a state. -/
@[simp] theorem DisplayM_pure_apply {α : Type} (a : α) (st : DState) :
    (pure a : DisplayM α) st = (.ok a, st) := rfl

/-- Unfolding lemma: throw in the display monad, applied to a state. -/
@[simp] theorem DisplayM_throw_apply {α : Type} (e : PyExc) (st : DState) :
    (throw e : DisplayM α) st = (.error e, st) := rfl

/-- Unfolding lemma: try/catch in the display monad, applied to a state. -/
@[simp] theorem DisplayM_tryCatch_apply {α : Type} (x : DisplayM α)
    (handler : PyExc → DisplayM α) (st : DState) :
    tryCatch x handler st =
      match x st with
      | (.ok a, st2) => (.ok a, st2)
      | (.error e, st2) => handler e st2 := rfl

/-- Unfolding lemma: the explicit tryCatchThe form produced by do-notation. -/
@[simp] theorem DisplayM_tryCatchThe_apply {α : Type} (x : DisplayM α)
    (handler : PyExc → DisplayM α) (st : DState) :
    tryCatchThe PyExc x handler st =
      match x st with
      | (.ok a, st2) => (.ok a, st2)
      | (.error e, st2) => handler e st2 := rfl

/-- Unfolding lemma: lifting a fallible operation, applied to a state. -/
@[simp] theorem liftE_apply {α : Type} (e : Except PyExc α) (st : DState) :
    liftE e st = (e, st) := rfl

/-- Unfolding lemma: getK, applied to a state. -/
@[simp] theorem getK_apply (v : JValue) (k : String) (st : DState) :
    getK v k st = (v.getItem k, st) := rfl

/-- Unfolding lemma: a top-level write, applied to a state. -/
@[simp] theorem wr_apply (s : String) (st : DState) :
    wr s st = (.ok (), { st with written := st.written ++ [s] }) := rfl

/-- Unfolding lemma: an expander write, applied to a state. -/
@[simp] theorem wrC_apply (s : String) (st : DState) :
    wrC s st = (.ok (), { st with conflictWritten := st.conflictWritten ++ [s] }) := rfl

/-- Unfolding lemma: an error write, applied to a state. -/
@[simp] theorem errW_apply (s : String) (st : DState) :
    errW s st = (.ok (), { st with errs := st.errs ++ [s] }) := rfl

/-- The p-distance artifact used by the display-block counterexamples. -/
def pReadOk : Artifact :=
  Artifact.decoded (.obj [("closest_reference", .str "Ref_A"),
    ("p_distance", .num 0), ("below_cutoff", .bool true)])

/-- A subtype artifact with conflicts flagged true and a determined
assignment, but no conflict_summary key at all. -/
def subtypeNoSummary : Artifact :=
  Artifact.decoded (.obj [("closest_reference_ml", .str "Ref_B"),
    ("ml_distance", .num 2), ("conflicts", .bool true),
    ("subtype_assignment", .str "HEV-C1")])

/-- Counterexample to C5: when conflicts is true and the conflict summary is
absent, the failure is NOT a distinct MalformedConflictSummary kind — the
KeyError escapes the inner try (which catches only IndexError) and is
handled by the same generic outer KeyError handler, producing a message of
exactly the same shape as an unrelated missing key such as
closest_reference gives. -/
theorem C5_counterexample :
    (displayResults pReadOk (.decoded (.obj [])) subtypeNoSummary).exc =
      some (.keyError "conflict_summary") ∧
    (displayResults pReadOk (.decoded (.obj [])) subtypeNoSummary).errors =
      ["Error loading results: Key error - conflict_summary"] ∧
    (displayResults (.decoded (.obj [])) (.decoded (.obj [])) subtypeNoSummary).exc =
      some (.keyError "closest_reference") ∧
    (displayResults (.decoded (.obj [])) (.decoded (.obj [])) subtypeNoSummary).errors =
      ["Error loading results: Key error - closest_reference"] := ⟨rfl, rfl, rfl, rfl⟩

/-- C5 as amended: for every subtype result with conflicts true, a
determined assignment and an absent conflict summary (and artifacts that
pass the earlier accesses of the summary block), the display block does not
crash: the KeyError is caught by the generic outer KeyError handler of the
display block and reported as the generic key-error message — there is no
distinct MalformedConflictSummary error kind in the program. -/
theorem C5_missing_summary_generic_keyerror
    (p t s pcr pbc scr cfv : JValue) (pdn smn : Int) (sa : String)
    (hp1 : p.getItem "closest_reference" = .ok pcr)
    (hp2 : p.getItem "p_distance" = .ok (.num pdn))
    (hp3 : p.getItem "below_cutoff" = .ok pbc)
    (hs1 : s.getItem "closest_reference_ml" = .ok scr)
    (hs2 : s.getItem "ml_distance" = .ok (.num smn))
    (hs3 : s.getItem "conflicts" = .ok cfv)
    (hcf : cfv.truthy = true)
    (hs4 : s.getItem "subtype_assignment" = .ok (.str sa))
    (hsa : sa ≠ "Not determined")
    (hs5 : s.getItem "conflict_summary" = .error (.keyError "conflict_summary")) :
    (displayResults (.decoded p) (.decoded t) (.decoded s)).exc =
      some (.keyError "conflict_summary") ∧
    (displayResults (.decoded p) (.decoded t) (.decoded s)).errors =
      ["Error loading results: Key error - conflict_summary"] := by
  have hsa2 : JValue.pyEqStr (.str sa) "Not determined" = false := by
    simp [JValue.pyEqStr, hsa]
  constructor <;>
    simp [displayResults, displayBody, loadArtifact, JValue.formatF4, hp1, hp2, hp3,
      hs1, hs2, hs3, hcf, hs4, hsa2, hs5, handleDisplayExc]

/-- Witness for the amended C5 at the concrete summary-less subtype result. -/
theorem C5_missing_summary_generic_keyerror_witness :
    (displayResults pReadOk (.decoded (.obj [])) subtypeNoSummary).exc =
      some (.keyError "conflict_summary") ∧
    (displayResults pReadOk (.decoded (.obj [])) subtypeNoSummary).errors =
      ["Error loading results: Key error - conflict_summary"] := by
  exact C5_missing_summary_generic_keyerror
    (.obj [("closest_reference", .str "Ref_A"), ("p_distance", .num 0),
      ("below_cutoff", .bool true)])
    (.obj [])
    (.obj [("closest_reference_ml", .str "Ref_B"), ("ml_distance", .num 2),
      ("conflicts", .bool true), ("subtype_assignment", .str "HEV-C1")])
    (.str "Ref_A") (.bool true) (.str "Ref_B") (.bool true) 0 2 "HEV-C1"
    rfl rfl rfl rfl rfl rfl rfl rfl (by decide) rfl

/-- A conflicting-taxon record as decoded from JSON: taxon, clade and
subtype fields, given as a triple of strings. -/
def taxonObj (tr : String × String × String) : JValue :=
  .obj [("taxon", .str tr.1), ("clade", .str tr.2.1), ("subtype", .str tr.2.2)]

/-- The formatted conflict line for one taxon, as built on line 244. -/
def taxonLine (tr : String × String × String) : String :=
  tr.1 ++ " (Clade " ++ tr.2.1 ++ " Subtype " ++ tr.2.2 ++ ")"

/-- Rendering a well-formed taxon record succeeds with its formatted line
and touches no state. -/
theorem renderTaxonInfo_taxonObj (tr : String × String × String) (st : DState) :
    renderTaxonInfo (taxonObj tr) st = (.ok (taxonLine tr), st) := rfl

/-- The mapM accumulator loop over well-formed taxon records succeeds with
all formatted lines and touches no state. -/
theorem mapM_loop_renderTaxonInfo (l : List (String × String × String))
    (acc : List String) (st : DState) :
    List.mapM.loop renderTaxonInfo (l.map taxonObj) acc st =
      (.ok (acc.reverse ++ l.map taxonLine), st) := by
  induction l generalizing acc st with
  | nil => simp [List.mapM.loop]
  | cons a rest ih => simp [List.mapM.loop, renderTaxonInfo_taxonObj, ih]

/-- mapM over well-formed taxon records succeeds with the formatted lines. -/
theorem mapM_renderTaxonInfo (l : List (String × String × String)) (st : DState) :
    List.mapM renderTaxonInfo (l.map taxonObj) st = (.ok (l.map taxonLine), st) := by
  simp [List.mapM, mapM_loop_renderTaxonInfo]

/-- Joining a decoded list of strings yields exactly those strings. -/
theorem joinStrElems_map_str (names : List String) :
    joinStrElems (names.map JValue.str) = .ok names := by
  induction names with
  | nil => rfl
  | cons a rest ih => simp [joinStrElems, ih, Except.map]

/-- Python ", ".join on a decoded list of strings is the comma join. -/
theorem joinComma_arr_str (names : List String) :
    joinComma (.arr (names.map JValue.str)) = .ok (String.intercalate ", " names) := by
  simp [joinComma, JValue.pyIter, joinStrElems_map_str, Except.bind, Except.map,
    bind, Functor.map, pure, Except.pure]

/-- C6: in the conflict report built by the display block (conflicts true),
if the assignment is "Not determined" the expander states only that the
consensus is irresolvable and the final line renders "Not determined"
verbatim — no clade or subtype content is synthesized; otherwise, with a
well-formed summary, the expander lists each conflicting taxon with its
clade and subtype, then the clade set and the subtype set exactly as given
(input order, no normalization), and the final line renders the assignment
verbatim. -/
theorem C6_conflict_report (p t s pcr pbc scr cfv summary : JValue)
    (pdn smn : Int) (sa : String)
    (txs : List (String × String × String)) (cladeNames subNames : List String)
    (hp1 : p.getItem "closest_reference" = .ok pcr)
    (hp2 : p.getItem "p_distance" = .ok (.num pdn))
    (hp3 : p.getItem "below_cutoff" = .ok pbc)
    (hs1 : s.getItem "closest_reference_ml" = .ok scr)
    (hs2 : s.getItem "ml_distance" = .ok (.num smn))
    (hs3 : s.getItem "conflicts" = .ok cfv)
    (hcf : cfv.truthy = true)
    (hs4 : s.getItem "subtype_assignment" = .ok (.str sa)) :
    (sa = "Not determined" →
      (displayResults (.decoded p) (.decoded t) (.decoded s)).conflictWritten =
        ["* **Consensus Assignment:** Not determined due to conflicts."] ∧
      (displayResults (.decoded p) (.decoded t) (.decoded s)).written =
        ["\n**Results Summary**",
         "* **Closest Reference:** " ++ pcr.pyStr ++ " (" ++ toString pdn ++ ")",
         "* **Below Cutoff:** " ++ pbc.pyStr,
         "* **Closest Reference:** " ++ scr.pyStr ++ " (" ++ toString smn ++ ")",
         "* **Conflicts:** " ++ cfv.pyStr,
         "\n**Subtype Assignment:** Not determined"] ∧
      (displayResults (.decoded p) (.decoded t) (.decoded s)).errors = [] ∧
      (displayResults (.decoded p) (.decoded t) (.decoded s)).exc = none)
    ∧ (sa ≠ "Not determined" →
      s.getItem "conflict_summary" = .ok summary →
      summary.getItem "conflicting_taxa" = .ok (.arr (txs.map taxonObj)) →
      summary.getItem "clades" = .ok (.arr (cladeNames.map JValue.str)) →
      summary.getItem "subtypes" = .ok (.arr (subNames.map JValue.str)) →
      (displayResults (.decoded p) (.decoded t) (.decoded s)).conflictWritten =
        ["* **Conflicting Taxa:** " ++ String.intercalate ", " (txs.map taxonLine),
         "* **Conflicting Clades:** " ++ String.intercalate ", " cladeNames,
         "* **Conflicting Subtypes:** " ++ String.intercalate ", " subNames] ∧
      "\n**Subtype Assignment:** " ++ sa ∈
        (displayResults (.decoded p) (.decoded t) (.decoded s)).written ∧
      (displayResults (.decoded p) (.decoded t) (.decoded s)).errors = [] ∧
      (displayResults (.decoded p) (.decoded t) (.decoded s)).exc = none) := by
  constructor
  · intro hnd
    subst hnd
    have hsa2 : JValue.pyEqStr (.str "Not determined") "Not determined" = true := by
      simp [JValue.pyEqStr]
    refine ⟨?_, ?_, ?_, ?_⟩ <;>
      simp [displayResults, displayBody, loadArtifact, JValue.formatF4, JValue.pyStr,
        hp1, hp2, hp3, hs1, hs2, hs3, hcf, hs4, hsa2]
  · intro hnd hsum htx hcl hsub
    have hsa2 : JValue.pyEqStr (.str sa) "Not determined" = false := by
      simp [JValue.pyEqStr, hnd]
    refine ⟨?_, ?_, ?_, ?_⟩ <;>
      simp [displayResults, displayBody, loadArtifact, JValue.formatF4, JValue.pyIter,
        JValue.pyStr, hp1, hp2, hp3, hs1, hs2, hs3, hcf, hs4, hsa2, hsum, htx, hcl, hsub,
        mapM_renderTaxonInfo, mapM_loop_renderTaxonInfo, joinComma_arr_str]

/-- Witness for C6, using the two scenarios of the specification: a
Not-determined conflict report states only irresolvability, and a
determined conflict report lists the Ref_B/Ref_C taxa with their clades and
subtypes and the deduplicated clade and subtype sets. -/
theorem C6_conflict_report_witness :
    (displayResults pReadOk (.decoded (.obj []))
        (.decoded (.obj [("closest_reference_ml", .str "Ref_B"), ("ml_distance", .num 2),
          ("conflicts", .bool true), ("subtype_assignment", .str "Not determined")]))).conflictWritten
      = ["* **Consensus Assignment:** Not determined due to conflicts."] ∧
    (displayResults pReadOk (.decoded (.obj []))
        (.decoded (.obj [("closest_reference_ml", .str "Ref_B"), ("ml_distance", .num 2),
          ("conflicts", .bool true), ("subtype_assignment", .str "HEV-C1"),
          ("conflict_summary", .obj [
            ("conflicting_taxa", .arr [taxonObj ("Ref_B", "I", "Ia"), taxonObj ("Ref_C", "II", "IIb")]),
            ("clades", .arr [.str "I", .str "II"]),
            ("subtypes", .arr [.str "Ia", .str "IIb"])])]))).conflictWritten
      = ["* **Conflicting Taxa:** Ref_B (Clade I Subtype Ia), Ref_C (Clade II Subtype IIb)",
         "* **Conflicting Clades:** I, II",
         "* **Conflicting Subtypes:** Ia, IIb"] := by
  constructor
  · exact (C6_conflict_report
      (.obj [("closest_reference", .str "Ref_A"), ("p_distance", .num 0),
        ("below_cutoff", .bool true)])
      (.obj [])
      (.obj [("closest_reference_ml", .str "Ref_B"), ("ml_distance", .num 2),
        ("conflicts", .bool true), ("subtype_assignment", .str "Not determined")])
      (.str "Ref_A") (.bool true) (.str "Ref_B") (.bool true) (.null)
      0 2 "Not determined" [] [] []
      rfl rfl rfl rfl rfl rfl rfl rfl).1 rfl |>.1
  · exact ((C6_conflict_report
      (.obj [("closest_reference", .str "Ref_A"), ("p_distance", .num 0),
        ("below_cutoff", .bool true)])
      (.obj [])
      (.obj [("closest_reference_ml", .str "Ref_B"), ("ml_distance", .num 2),
        ("conflicts", .bool true), ("subtype_assignment", .str "HEV-C1"),
        ("conflict_summary", .obj [
          ("conflicting_taxa", .arr [taxonObj ("Ref_B", "I", "Ia"), taxonObj ("Ref_C", "II", "IIb")]),
          ("clades", .arr [.str "I", .str "II"]),
          ("subtypes", .arr [.str "Ia", .str "IIb"])])])
      (.str "Ref_A") (.bool true) (.str "Ref_B") (.bool true)
      (.obj [
        ("conflicting_taxa", .arr [taxonObj ("Ref_B", "I", "Ia"), taxonObj ("Ref_C", "II", "IIb")]),
        ("clades", .arr [.str "I", .str "II"]),
        ("subtypes", .arr [.str "Ia", .str "IIb"])])
      0 2 "HEV-C1" [("Ref_B", "I", "Ia"), ("Ref_C", "II", "IIb")] ["I", "II"] ["Ia", "IIb"]
      rfl rfl rfl rfl rfl rfl rfl rfl).2 (by decide) rfl rfl rfl rfl).1

/-- The Boolean substring test agrees with list-infix occurrence. -/
theorem sublistCheck_iff_infix (needle hay : List Char) :
    sublistCheck needle hay = true ↔ needle <:+: hay := by
  induction hay with
  | nil => simp [sublistCheck, List.isEmpty_iff]
  | cons c t ih => simp [sublistCheck, ih, List.infix_cons_iff]

/-- C7: after a successful run, the reorganization renames exactly those
entries of the output-directory listing whose name contains "reoptimised"
or "updated", from output/name to output/iqtree/name — an entry is moved
if and only if its name has such an occurrence, so no other files are
moved. -/
theorem C7_reorganize_moves (listing : List String) (pr : String × String) :
    pr ∈ reorganizeMoves listing ↔
      ∃ n, n ∈ listing ∧
        ("reoptimised".data <:+: n.data ∨ "updated".data <:+: n.data) ∧
        pr = (pathJoin "output" n, pathJoin (pathJoin "output" "iqtree") n) := by
  simp only [reorganizeMoves, List.mem_map, List.mem_filter, Bool.or_eq_true,
    containsSub, sublistCheck_iff_infix]
  constructor
  · rintro ⟨n, ⟨hn, hsub⟩, heq⟩
    exact ⟨n, hn, hsub, heq.symm⟩
  · rintro ⟨n, hn, hsub, heq⟩
    exact ⟨n, ⟨hn, hsub⟩, heq.symm⟩

/-- Witness for C7 on a concrete listing: the updated alignment is moved
into iqtree, and a summary artifact without either substring is not. -/
theorem C7_reorganize_moves_witness :
    ("output/Q1_updated.fasta", "output/iqtree/Q1_updated.fasta") ∈
      reorganizeMoves ["p_distance_output.json", "Q1_updated.fasta", "iqtree"] ∧
    ("output/p_distance_output.json", "output/iqtree/p_distance_output.json") ∉
      reorganizeMoves ["p_distance_output.json", "Q1_updated.fasta", "iqtree"] := by
  constructor
  · exact (C7_reorganize_moves _ _).mpr
      ⟨"Q1_updated.fasta", by simp, Or.inr (by decide), rfl⟩
  · decide

/-- The walk-ordered enumeration of the packaging loop hits exactly the
regular files of the tree (the spec-side enumeration): the two lists differ
only in the order in which subdirectory files appear. -/
theorem zipWalk_mem_spec (q : String) (root : String) (es : List Entry) :
    (q ∈ topLevelFiles root es ++ zipWalkSubdirs root es ↔
      q ∈ specRegularFiles root es) := by
  induction root, es using specRegularFiles.induct with
  | case1 root => simp [topLevelFiles, zipWalkSubdirs, specRegularFiles]
  | case2 root n rest ih =>
    simp only [topLevelFiles, zipWalkSubdirs, specRegularFiles, List.filterMap_cons,
      List.mem_append, List.mem_cons] at ih ⊢
    tauto
  | case3 root n es2 rest ih1 ih2 =>
    simp only [topLevelFiles, zipWalkSubdirs, specRegularFiles, List.filterMap_cons,
      List.mem_append, List.mem_cons] at ih1 ih2 ⊢
    tauto

/-- Every regular file of the tree lies under the root: its path is the
root followed by the separator and a remainder. -/
theorem specRegularFiles_under_root (q : String) (root : String) (es : List Entry)
    (h : q ∈ specRegularFiles root es) : ∃ rest, q = root ++ "/" ++ rest := by
  induction root, es using specRegularFiles.induct with
  | case1 root => simp [specRegularFiles] at h
  | case2 root n rest ih =>
    simp only [specRegularFiles, List.mem_cons] at h
    rcases h with h | h
    · exact ⟨n, h⟩
    · exact ih h
  | case3 root n es2 rest ih1 ih2 =>
    simp only [specRegularFiles, List.mem_append] at h
    rcases h with h | h
    · rcases ih1 h with ⟨r, hr⟩
      exact ⟨n ++ "/" ++ r, by simpa [pathJoin, String.append_assoc] using hr⟩
    · exact ih2 h

/-- C8: the packaging loop writes every regular file under the output tree,
and nothing else, into the archive; each member is stored under its on-disk
path taken relative to the output directory parent (the current directory),
so the member name equals the on-disk path and every member lives under the
top-level "output/" entry. Membership is a function of the tree alone, so
re-running packaging on an unchanged tree yields identical membership. -/
theorem C8_archive_members (tree : List Entry) (q : String) :
    ((zipArchive tree).map Prod.snd = (zipArchive tree).map Prod.fst)
    ∧ (q ∈ (zipArchive tree).map Prod.snd ↔ q ∈ specRegularFiles "output" tree)
    ∧ (q ∈ (zipArchive tree).map Prod.snd → ∃ rest, q = "output" ++ "/" ++ rest) := by
  have hmem : q ∈ (zipArchive tree).map Prod.snd ↔ q ∈ specRegularFiles "output" tree := by
    rw [← zipWalk_mem_spec q "output" tree]
    simp [zipArchive, zipWalk, os_path_relpath]
  refine ⟨?_, hmem, fun h => specRegularFiles_under_root q "output" tree (hmem.mp h)⟩
  simp [zipArchive, os_path_relpath]

/-- Witness for C8 on a concrete output tree: the nested updated-alignment
file is an archive member under the top-level output entry, and a path not
in the tree is not a member. -/
theorem C8_archive_members_witness :
    "output/iqtree/Q1_updated.fasta" ∈
      (zipArchive [Entry.file "a.json",
        Entry.dir "iqtree" [Entry.file "Q1_updated.fasta"]]).map Prod.snd ∧
    "output/missing.txt" ∉
      (zipArchive [Entry.file "a.json",
        Entry.dir "iqtree" [Entry.file "Q1_updated.fasta"]]).map Prod.snd := by
  constructor
  · refine (C8_archive_members _ _).2.1.mpr ?_
    simp [specRegularFiles, pathJoin]
  · intro h
    have := (C8_archive_members _ _).2.1.mp h
    simp [specRegularFiles, pathJoin] at this

/-- A tree-stage call whose payload is truthy returned the success tuple:
its output paths are the alignment and tree-prefix paths derived from the
caller-supplied query id. -/
theorem infer_new_tree_outputs_of_truthy (pyExe cwd existing_alignment new_sequence
    query_id existing_tree output_dir : String) (run : StageRun)
    (h : truthyOpt (infer_new_tree pyExe cwd existing_alignment new_sequence query_id
      existing_tree output_dir run).payload = true) :
    (infer_new_tree pyExe cwd existing_alignment new_sequence query_id existing_tree
      output_dir run).output_alignment =
        some (pathJoin output_dir (query_id ++ "_updated.fasta")) ∧
    (infer_new_tree pyExe cwd existing_alignment new_sequence query_id existing_tree
      output_dir run).output_tree =
        some (pathJoin output_dir (query_id ++ "_reoptimised")) := by
  by_cases hrc : (run.proc.returncode != 0) = true
  · simp [infer_new_tree, hrc, truthyOpt] at h
  · cases hart : run.artifact with
    | missing => simp [infer_new_tree, hrc, hart, truthyOpt] at h
    | malformed raw => simp [infer_new_tree, hrc, hart, truthyOpt] at h
    | decoded v => simp [infer_new_tree, hrc, hart]

/-- The output paths of a tree-stage call are either absent (failure) or
the alignment and tree-prefix paths derived from the query id. -/
theorem infer_new_tree_output_cases (pyExe cwd existing_alignment new_sequence
    query_id existing_tree output_dir : String) (run : StageRun) :
    ((infer_new_tree pyExe cwd existing_alignment new_sequence query_id existing_tree
      output_dir run).output_alignment = none ∨
     (infer_new_tree pyExe cwd existing_alignment new_sequence query_id existing_tree
      output_dir run).output_alignment =
        some (pathJoin output_dir (query_id ++ "_updated.fasta"))) ∧
    ((infer_new_tree pyExe cwd existing_alignment new_sequence query_id existing_tree
      output_dir run).output_tree = none ∨
     (infer_new_tree pyExe cwd existing_alignment new_sequence query_id existing_tree
      output_dir run).output_tree =
        some (pathJoin output_dir (query_id ++ "_reoptimised"))) := by
  by_cases hrc : (run.proc.returncode != 0) = true
  · simp [infer_new_tree, hrc]
  · cases hart : run.artifact with
    | missing => simp [infer_new_tree, hrc, hart]
    | malformed raw => simp [infer_new_tree, hrc, hart]
    | decoded v => simp [infer_new_tree, hrc, hart]

/-- The argv list of a subtype-stage call, independent of its outcome. -/
theorem infer_subtype_command (pyExe cwd input_newick predefined_label csv_file : String)
    (run : StageRun) :
    (infer_subtype pyExe cwd input_newick predefined_label csv_file run).command =
      [pyExe, "ML_patristic-dist_calc.py", os_abspath cwd input_newick,
        predefined_label, os_abspath cwd csv_file] := by
  by_cases hrc : (run.proc.returncode != 0) = true
  · simp [infer_subtype, hrc]
  · cases hart : run.artifact with
    | missing => simp [infer_subtype, hrc, hart]
    | malformed raw => simp [infer_subtype, hrc, hart]
    | decoded v => simp [infer_subtype, hrc, hart]

/-- C9: for every run that reaches the SubtypeInfer stage, the taxon label
in its argv equals the query identifier extracted from the first uploaded
FASTA record, the tree file it consumes is the TreeInfer tree-prefix path
with ".treefile" appended, and that prefix (like the updated-alignment
path) is named by the same identifier. -/
theorem C9_label_consistency (env : Env) (r : FastaRecord) (rs : List FastaRecord)
    (hup : env.upload = some (r :: rs)) :
    ((mainRun env).tree_output_alignment = none ∨
      (mainRun env).tree_output_alignment =
        some (pathJoin "output" (r.id ++ "_updated.fasta")))
    ∧ ((mainRun env).tree_output_tree = none ∨
      (mainRun env).tree_output_tree =
        some (pathJoin "output" (r.id ++ "_reoptimised")))
    ∧ (∀ cmd, (mainRun env).subtypeCommand = some cmd →
        cmd = [env.pyExe, "ML_patristic-dist_calc.py",
          os_abspath env.cwd (pathJoin "output" (r.id ++ "_reoptimised") ++ ".treefile"),
          r.id, os_abspath env.cwd "reference_subtypes.csv"]) := by
  have htocases := infer_new_tree_output_cases env.pyExe env.cwd "reference_alignment.fa"
    env.tempPath r.id "reference_tree.tree" "output" env.treeRun
  by_cases h1 : truthyOpt (calculate_p_distance env.pyExe env.cwd env.tempPath
      "reference_genomes.fa" env.pDistRun).payload
  · by_cases h2 : truthyOpt (infer_new_tree env.pyExe env.cwd "reference_alignment.fa"
        env.tempPath r.id "reference_tree.tree" "output" env.treeRun).payload
    · have houts := infer_new_tree_outputs_of_truthy env.pyExe env.cwd
        "reference_alignment.fa" env.tempPath r.id "reference_tree.tree" "output"
        env.treeRun h2
      by_cases h3 : truthyOpt (infer_subtype env.pyExe env.cwd
          (pathJoin "output" (r.id ++ "_reoptimised") ++ ".treefile") r.id
          "reference_subtypes.csv" env.subtypeRun).payload
      · simp [mainRun, hup, extract_fasta_header, pyStrOpt, h1, h2, h3, houts.1,
          houts.2, infer_subtype_command]
      · simp [mainRun, hup, extract_fasta_header, pyStrOpt, h1, h2, h3, houts.1,
          houts.2, infer_subtype_command]
    · simp only [mainRun, hup, extract_fasta_header, pyStrOpt, h1, h2]
      simp only [Bool.false_eq_true, if_false, if_true]
      exact ⟨htocases.1, htocases.2, fun cmd hcmd => by simp at hcmd⟩
  · refine ⟨?_, ?_, ?_⟩ <;> simp [mainRun, hup, h1]

/-- Witness for C9 at the fully successful concrete run: the subtype argv
carries the query id Q1 as the taxon label and consumes the Q1-named tree
prefix with the fixed extension. -/
theorem C9_label_consistency_witness :
    (mainRun envAllOk).tree_output_alignment = some "output/Q1_updated.fasta" ∧
    (mainRun envAllOk).tree_output_tree = some "output/Q1_reoptimised" ∧
    (mainRun envAllOk).subtypeCommand =
      some ["python", "ML_patristic-dist_calc.py", "/app/output/Q1_reoptimised.treefile",
        "Q1", "/app/reference_subtypes.csv"] := by
  have h := C9_label_consistency envAllOk { id := "Q1", seq := "ACGT" } [] rfl
  refine ⟨?_, ?_, ?_⟩
  · rcases h.1 with hn | hs
    · exact absurd hn (by decide)
    · exact hs
  · rcases h.2.1 with hn | hs
    · exact absurd hn (by decide)
    · exact hs
  · have hcmd := h.2.2 ((mainRun envAllOk).subtypeCommand.getD [])
    have hsome : (mainRun envAllOk).subtypeCommand =
        some ((mainRun envAllOk).subtypeCommand.getD []) := rfl
    rw [hsome, hcmd hsome]
    rfl
